import Mathlib

/-!
Verification development for the resume-parser agent pipeline
(`app/agents.py`).  The Python source is shallowly embedded:

* Python strings are Lean `String` (a list of characters, matching
  code-point indexing and `len` in the source).
* `json.loads` is modelled by an executable recursive-descent parser
  `pyLoads` over a `JValue` type.  The model covers JSON objects,
  arrays, strings with the common escapes, integer numbers, booleans
  and null; float literals, `\u` escapes and leading-zero rejection
  are outside the modelled scope, and no theorem below depends on
  inputs using them.
* Python truthiness (`x or y`), `str(...)`, `.strip()`, and
  `dict.get` are modelled by `pyTruthy`, `pyStr`, `pyStrip`, `pyGet`.
* Exceptions are modelled with `Except`: `PyError.attributeError` for
  the uncaught `.get` on a non-dict payload, and
  `PyError.agentExecutionError` for the wrapped transport failure.
* The chat-completion backend (`prompt | _llm | _parser` invoked by
  `_invoke`) is an opaque parameter `backend : LLMCall → Except String
  String`; an `LLMCall` records which prompt template was used and
  the rendered template variables, so that theorems can speak about
  which calls a pipeline run performs and with which inputs.
-/

/-- A JSON value as produced by `json.loads`; object fields are kept in
source order and looked up with last-occurrence-wins semantics, matching
Python dict construction.  Numbers are modelled as integers. -/
inductive JValue where
  | jnull : JValue
  | jbool : Bool → JValue
  | jnum : Int → JValue
  | jstr : String → JValue
  | jarr : List JValue → JValue
  | jobj : List (String × JValue) → JValue

/-- Which prompt template a chat-completion call used: the similarity
prompt of agent 1, the gap prompt of agent 2, or the compilation prompt
of agent 3. -/
inductive Stage where
  | similarity : Stage
  | gap : Stage
  | compilation : Stage
deriving DecidableEq

/-- `AgentOutput` from `app/agents.py`: the typed result of one stage. -/
structure AgentOutput where
  name : String
  summary : String
  highlights : List String
deriving DecidableEq

/-- A Python exception escaping the embedded code: either the
`AgentExecutionError` raised by `_invoke`, or the `AttributeError`
raised by `payload.get` when `json.loads` returned a non-dict. -/
inductive PyError where
  | agentExecutionError : String → PyError
  | attributeError : String → PyError
deriving DecidableEq

/-- One chat-completion request: the prompt template used and the
rendered template variables, in keyword order of the source call. -/
structure LLMCall where
  stage : Stage
  vars : List (String × String)
deriving DecidableEq

def lbraceChar : Char := Char.ofNat 123

def rbraceChar : Char := Char.ofNat 125

def squote : String := String.mk [Char.ofNat 39]

mutual

/-- Python `repr` on a decoded JSON value (used by `str` on containers). -/
def pyRepr : JValue → String
  | .jnull => "None"
  | .jbool b => if b then "True" else "False"
  | .jnum n => toString n
  | .jstr s => squote ++ s ++ squote
  | .jarr xs => "[" ++ pyReprList xs ++ "]"
  | .jobj fs => String.mk [lbraceChar] ++ pyReprFields fs ++ String.mk [rbraceChar]

def pyReprList : List JValue → String
  | [] => ""
  | [v] => pyRepr v
  | v :: rest => pyRepr v ++ ", " ++ pyReprList rest

def pyReprFields : List (String × JValue) → String
  | [] => ""
  | [(k, v)] => squote ++ k ++ squote ++ ": " ++ pyRepr v
  | (k, v) :: rest => squote ++ k ++ squote ++ ": " ++ pyRepr v ++ ", " ++ pyReprFields rest

end

/-- Python `str` on a decoded JSON value. -/
def pyStr : JValue → String
  | .jstr s => s
  | v => pyRepr v

/-- Python truthiness of a decoded JSON value. -/
def pyTruthy : JValue → Bool
  | .jnull => false
  | .jbool b => b
  | .jnum n => n != 0
  | .jstr s => s != ""
  | .jarr xs => !xs.isEmpty
  | .jobj fs => !fs.isEmpty

/-- The Python type name, as it appears in the `AttributeError` message. -/
def pyTypeName : JValue → String
  | .jnull => "NoneType"
  | .jbool _ => "bool"
  | .jnum _ => "int"
  | .jstr _ => "str"
  | .jarr _ => "list"
  | .jobj _ => "dict"

/-- `payload.get(k)`: last occurrence wins, mirroring dict construction
from possibly-duplicate JSON keys. -/
def pyGet (fs : List (String × JValue)) (k : String) : Option JValue :=
  (fs.reverse.find? (fun p => p.1 == k)).map (fun p => p.2)

/-- Both-ends whitespace strip on a character list. -/
def stripList (l : List Char) : List Char :=
  ((l.dropWhile Char.isWhitespace).reverse.dropWhile Char.isWhitespace).reverse

/-- Python `str.strip()` with no arguments. -/
def pyStrip (s : String) : String := String.mk (stripList s.data)

/-- Skip JSON inter-token whitespace. -/
def skipWs : List Char → List Char
  | [] => []
  | c :: cs => if c == ' ' || c == '\t' || c == '\n' || c == '\r' then skipWs cs else c :: cs

/-- Accumulate a run of decimal digits. -/
def parseDigitsAux : Nat → List Char → Nat × List Char
  | acc, c :: cs => if c.isDigit then parseDigitsAux (10 * acc + (c.toNat - 48)) cs else (acc, c :: cs)
  | acc, [] => (acc, [])

/-- A natural-number literal; refuses float syntax (outside the modelled
scope) by failing when a dot or exponent follows the digits. -/
def parseNatLit (cs : List Char) : Option (Nat × List Char) :=
  match cs with
  | c :: _ =>
    if c.isDigit then
      match parseDigitsAux 0 cs with
      | (n, d :: rest) =>
        if d == '.' || d == 'e' || d == 'E' then none else some (n, d :: rest)
      | (n, []) => some (n, [])
    else none
  | [] => none

/-- An integer literal with optional leading minus. -/
def parseIntLit (cs : List Char) : Option (Int × List Char) :=
  match cs with
  | '-' :: rest => (parseNatLit rest).map (fun p => (-(p.1 : Int), p.2))
  | _ => (parseNatLit cs).map (fun p => ((p.1 : Int), p.2))

/-- Body of a JSON string, after the opening quote; supports the common
escapes. -/
def parseStringBody (fuel : Nat) (acc : List Char) (cs : List Char) : Option (String × List Char) :=
  match fuel, cs with
  | 0, _ => none
  | _, [] => none
  | f + 1, c :: rest =>
    if c == '"' then some (String.mk acc.reverse, rest)
    else if c == '\\' then
      match rest with
      | [] => none
      | e :: rest2 =>
        if e == '"' then parseStringBody f ('"' :: acc) rest2
        else if e == '\\' then parseStringBody f ('\\' :: acc) rest2
        else if e == '/' then parseStringBody f ('/' :: acc) rest2
        else if e == 'n' then parseStringBody f ('\n' :: acc) rest2
        else if e == 't' then parseStringBody f ('\t' :: acc) rest2
        else if e == 'r' then parseStringBody f ('\r' :: acc) rest2
        else none
    else parseStringBody f (c :: acc) rest

mutual

/-- One JSON value starting at the head of the input. -/
def parseVal : Nat → List Char → Option (JValue × List Char)
  | 0, _ => none
  | _ + 1, [] => none
  | fuel + 1, c :: cs =>
    if c == '"' then
      match parseStringBody (cs.length + 1) [] cs with
      | some (s, rest) => some (.jstr s, rest)
      | none => none
    else if c == lbraceChar then parseObjFields fuel (skipWs cs) []
    else if c == '[' then parseArrItems fuel (skipWs cs) []
    else if c == 't' then
      match cs with
      | 'r' :: 'u' :: 'e' :: rest => some (.jbool true, rest)
      | _ => none
    else if c == 'f' then
      match cs with
      | 'a' :: 'l' :: 's' :: 'e' :: rest => some (.jbool false, rest)
      | _ => none
    else if c == 'n' then
      match cs with
      | 'u' :: 'l' :: 'l' :: rest => some (.jnull, rest)
      | _ => none
    else if c == '-' || c.isDigit then
      match parseIntLit (c :: cs) with
      | some (n, rest) => some (.jnum n, rest)
      | none => none
    else none

/-- Array items after the opening bracket (whitespace already skipped);
`acc` holds the items parsed so far, reversed. -/
def parseArrItems : Nat → List Char → List JValue → Option (JValue × List Char)
  | 0, _, _ => none
  | _ + 1, [], _ => none
  | fuel + 1, c :: cs, acc =>
    if c == ']' && acc.isEmpty then some (.jarr [], cs)
    else
      match parseVal fuel (c :: cs) with
      | none => none
      | some (v, rest) =>
        match skipWs rest with
        | ']' :: rest2 => some (.jarr (v :: acc).reverse, rest2)
        | ',' :: rest2 => parseArrItems fuel (skipWs rest2) (v :: acc)
        | _ => none

/-- Object members after the opening brace (whitespace already skipped);
`acc` holds the members parsed so far, reversed. -/
def parseObjFields : Nat → List Char → List (String × JValue) → Option (JValue × List Char)
  | 0, _, _ => none
  | _ + 1, [], _ => none
  | fuel + 1, c :: cs, acc =>
    if c == rbraceChar && acc.isEmpty then some (.jobj [], cs)
    else if c == '"' then
      match parseStringBody (cs.length + 1) [] cs with
      | none => none
      | some (k, rest) =>
        match skipWs rest with
        | ':' :: rest2 =>
          match parseVal fuel (skipWs rest2) with
          | none => none
          | some (v, rest3) =>
            match skipWs rest3 with
            | c2 :: rest4 =>
              if c2 == rbraceChar then some (.jobj ((k, v) :: acc).reverse, rest4)
              else if c2 == ',' then parseObjFields fuel (skipWs rest4) ((k, v) :: acc)
              else none
            | [] => none
        | _ => none
    else none

end

/-- Model of `json.loads`: parse one value, require only whitespace to
remain, fail otherwise (`None` stands for `json.JSONDecodeError`). -/
def pyLoads (s : String) : Option JValue :=
  match parseVal (2 * s.length + 2) (skipWs s.data) with
  | some (v, rest) => if skipWs rest = [] then some v else none
  | none => none

/-- `_truncate` from `app/agents.py`: prevent prompts from exploding in
size.  The source has `limit=4000` as a default; every call site uses
the default, and call sites below pass 4000 explicitly. -/
def _truncate (text : String) (limit : Nat) : String :=
  if text.length ≤ limit then text
  else String.mk (text.data.take limit) ++ "\n...\n[truncated]"

/-- `_extract_json_blob` from `app/agents.py`: the leftmost-greedy
match of the DOTALL pattern brace-dot-star-brace, i.e. the span from
the first opening brace to the last closing brace when the latter comes
after the former, else the whole text. -/
def _extract_json_blob (text : String) : String :=
  let cs := text.data
  match cs.findIdx? (fun c => c == lbraceChar), cs.reverse.findIdx? (fun c => c == rbraceChar) with
  | some i, some k =>
    let j := cs.length - 1 - k
    if i < j then String.mk ((cs.drop i).take (j - i + 1)) else text
  | _, _ => text

/-- The summary normalization inside `_parse_agent_payload`:
`str(payload.get("summary") or "").strip()`, then the sentinel when
empty. -/
def normSummary (v : Option JValue) : String :=
  let s := pyStrip (match v with
    | none => ""
    | some w => if pyTruthy w then pyStr w else "")
  if s = "" then "No summary returned by the LLM." else s

/-- The highlights normalization inside `_parse_agent_payload`:
`payload.get("highlights") or []`, wrap a truthy non-list, then
stringify-strip each item, drop empties, keep the first 8. -/
def normHighlights (v : Option JValue) : List String :=
  let hs : List JValue :=
    match v with
    | none => []
    | some w =>
      if pyTruthy w then
        match w with
        | .jarr xs => xs
        | w' => [.jstr (pyStr w')]
      else []
  ((hs.map (fun it => pyStrip (pyStr it))).filter (fun s => s != "")).take 8

/-- `_parse_agent_payload` from `app/agents.py`.  Only
`json.JSONDecodeError` is caught (modelled by `pyLoads` returning
`none`, which selects the fallback dict); a successfully decoded
non-dict payload reaches `payload.get` and raises `AttributeError`,
modelled by the `Except.error` branch. -/
def _parse_agent_payload (raw : String) (agent_name : String) : Except PyError AgentOutput :=
  let payload : JValue :=
    match pyLoads (_extract_json_blob raw) with
    | some v => v
    | none => .jobj [("summary", .jstr (pyStrip raw)), ("highlights", .jarr [])]
  match payload with
  | .jobj fs =>
    .ok ⟨agent_name, normSummary (pyGet fs "summary"), normHighlights (pyGet fs "highlights")⟩
  | v => .error (.attributeError (pyTypeName v ++ " object has no attribute get"))

/-- `_invoke` from `app/agents.py`: run the chain once; any backend
exception is wrapped into `AgentExecutionError` carrying the agent
label.  The returned list records the single chat-completion call that
was made (there is no retry in the source). -/
def _invoke (backend : LLMCall → Except String String) (stage : Stage)
    (agent_label : String) (vars : List (String × String)) :
    Except PyError String × List LLMCall :=
  let call : LLMCall := ⟨stage, vars⟩
  (match backend call with
   | .ok s => .ok s
   | .error _ =>
     .error (.agentExecutionError (agent_label ++ " could not complete due to an upstream Groq error.")),
   [call])

/-- `agent_one` from `app/agents.py`: the similarity agent. -/
def agent_one (backend : LLMCall → Except String String) (resume_text job_text : String) :
    Except PyError AgentOutput × List LLMCall :=
  let s := _invoke backend .similarity "Agent 1 (similarity & strengths)"
    [("resume_excerpt", _truncate resume_text 4000), ("job_description", _truncate job_text 4000)]
  (s.1.bind (fun raw => _parse_agent_payload raw "Similarity & strengths agent"), s.2)

/-- `agent_two` from `app/agents.py`: the gap agent.  Its template
variables are computed from the original two inputs only. -/
def agent_two (backend : LLMCall → Except String String) (resume_text job_text : String) :
    Except PyError AgentOutput × List LLMCall :=
  let s := _invoke backend .gap "Agent 2 (gap analysis)"
    [("resume_excerpt", _truncate resume_text 4000), ("job_description", _truncate job_text 4000)]
  (s.1.bind (fun raw => _parse_agent_payload raw "Gap analysis agent"), s.2)

/-- The text block `agent_three` renders for one upstream output:
the summary followed by the highlights, joined by newlines. -/
def feedback_block (o : AgentOutput) : String :=
  String.intercalate "\n" (o.summary :: o.highlights)

/-- `agent_three` from `app/agents.py`: renders the two feedback
blocks (Python `or` substitutes the placeholder exactly when a block
is the empty string, in particular when the upstream output is
absent from the list) and invokes the compilation prompt. -/
def agent_three (backend : LLMCall → Except String String) (outputs : List AgentOutput) :
    Except PyError AgentOutput × List LLMCall :=
  let strengths_block := match outputs with
    | o :: _ => feedback_block o
    | [] => ""
  let gaps_block := match outputs with
    | _ :: o :: _ => feedback_block o
    | _ => ""
  let s := _invoke backend .compilation "Agent 3 (compilation)"
    [("agent_one_feedback", if strengths_block = "" then "Agent 1 did not produce feedback." else strengths_block),
     ("agent_two_feedback", if gaps_block = "" then "Agent 2 did not produce feedback." else gaps_block)]
  (s.1.bind (fun raw => _parse_agent_payload raw "Compilation agent"), s.2)

/-- `run_agent_workflow` from `app/agents.py`, with the LangGraph
wiring of `_build_workflow` inlined: the compiled graph runs
`similarity_node`, then `gap_node`, then `compilation_node`, each node
writing its result into the shared state; an exception in any node
aborts the run, so later nodes are never invoked and no partial result
is returned.  The second component collects the chat-completion calls
in execution order. -/
def run_agent_workflow (backend : LLMCall → Except String String)
    (resume_text job_text : String) :
    Except PyError (List AgentOutput) × List LLMCall :=
  let s1 := agent_one backend resume_text job_text
  match s1.1 with
  | .error e => (.error e, s1.2)
  | .ok o1 =>
    let s2 := agent_two backend resume_text job_text
    match s2.1 with
    | .error e => (.error e, s1.2 ++ s2.2)
    | .ok o2 =>
      let s3 := agent_three backend [o1, o2]
      match s3.1 with
      | .error e => (.error e, s1.2 ++ s2.2 ++ s3.2)
      | .ok o3 => (.ok [o1, o2, o3], s1.2 ++ s2.2 ++ s3.2)

/-- Whether an `Except` computation returned normally. -/
def exceptOk {e a : Type} : Except e a → Bool
  | .ok _ => true
  | .error _ => false

/-- The decode outcomes on which `_parse_agent_payload` cannot reach
the uncaught attribute access: a decode failure or a decoded object. -/
def decodableOrObject : Option JValue → Bool
  | none => true
  | some (.jobj _) => true
  | some _ => false

/-- A concrete backend whose three stages each answer with well-formed
JSON, used to exercise the pipeline theorems on closed inputs. -/
def demoBackend : LLMCall → Except String String := fun call =>
  match call.stage with
  | .similarity => .ok "\x7b\"summary\": \"Strong overlap\", \"highlights\": [\"Python\"]\x7d"
  | .gap => .ok "\x7b\"summary\": \"Missing cloud\", \"highlights\": []\x7d"
  | .compilation => .ok "\x7b\"summary\": \"Good fit overall\", \"highlights\": [\"Hire\"]\x7d"

/-- A concrete backend that fails with a transport error exactly on the
gap-stage call. -/
def failingGapBackend : LLMCall → Except String String := fun call =>
  match call.stage with
  | .gap => .error "connection reset"
  | _ => .ok "\x7b\"summary\": \"ok\", \"highlights\": []\x7d"

/-- A 4001-character input, one character over the truncation limit. -/
def longText : String := String.mk (List.replicate 4001 'a')

/-- An upstream output whose rendered feedback block has 4100
characters, over the truncation limit. -/
def longOutput1 : AgentOutput :=
  ⟨"Similarity & strengths agent", String.mk (List.replicate 4100 'a'), []⟩

/-- An upstream output whose rendered feedback block has 4200
characters, over the truncation limit. -/
def longOutput2 : AgentOutput :=
  ⟨"Gap analysis agent", String.mk (List.replicate 4200 'b'), []⟩

theorem dropWhile_dropWhile (p : Char → Bool) (l : List Char) :
    (l.dropWhile p).dropWhile p = l.dropWhile p := by
  induction l with
  | nil => rfl
  | cons c cs ih =>
    by_cases h : p c
    · simp [List.dropWhile_cons, h, ih]
    · simp [List.dropWhile_cons, h]

theorem exists_append_dropWhile (p : Char → Bool) (l : List Char) :
    ∃ t, l = t ++ l.dropWhile p := by
  induction l with
  | nil => exact ⟨[], rfl⟩
  | cons c cs ih =>
    by_cases h : p c
    · obtain ⟨t, ht⟩ := ih
      exact ⟨c :: t, by simp [List.dropWhile_cons, h, ← ht]⟩
    · exact ⟨[], by simp [List.dropWhile_cons, h]⟩

theorem dropWhile_head_false (p : Char → Bool) (l : List Char) (c : Char) (cs : List Char)
    (h : l.dropWhile p = c :: cs) : p c = false := by
  induction l with
  | nil => simp [List.dropWhile] at h
  | cons d ds ih =>
    rw [List.dropWhile_cons] at h
    by_cases hd : p d
    · rw [if_pos hd] at h
      exact ih h
    · rw [if_neg hd] at h
      cases h
      simpa using hd

theorem stripList_idem (l : List Char) : stripList (stripList l) = stripList l := by
  unfold stripList
  set p := Char.isWhitespace with hp
  set A := l.dropWhile p with hA
  set B := A.reverse.dropWhile p with hB
  have hBB : B.dropWhile p = B := by rw [hB, dropWhile_dropWhile]
  have claim1 : B.reverse.dropWhile p = B.reverse := by
    cases hBr : B.reverse with
    | nil => rfl
    | cons c cs =>
      obtain ⟨t, ht⟩ := exists_append_dropWhile p A.reverse
      have hArev : A = B.reverse ++ t.reverse := by
        have h2 := congrArg List.reverse ht
        simpa [List.reverse_append, ← hB] using h2
      have hAc : A = c :: (cs ++ t.reverse) := by rw [hArev, hBr]; simp
      have hc : p c = false := dropWhile_head_false p l c (cs ++ t.reverse) (by rw [← hA, ← hAc])
      simp [List.dropWhile_cons, hc]
  rw [claim1, List.reverse_reverse, hBB]

theorem pyStrip_idem (s : String) : pyStrip (pyStrip s) = pyStrip s := by
  show String.mk (stripList (stripList s.data)) = String.mk (stripList s.data)
  rw [stripList_idem]

theorem normSummary_ne_empty (v : Option JValue) : normSummary v ≠ "" := by
  unfold normSummary
  set s := pyStrip (match v with
    | none => ""
    | some w => if pyTruthy w then pyStr w else "") with hs
  by_cases h : s = ""
  · rw [if_pos h]
    decide
  · rw [if_neg h]
    exact h

theorem normHighlights_length_le (v : Option JValue) : (normHighlights v).length ≤ 8 := by
  unfold normHighlights
  exact List.length_take_le 8 _

theorem normHighlights_all (v : Option JValue) :
    (normHighlights v).all (fun s => s != "") = true := by
  unfold normHighlights
  rw [List.all_eq_true]
  intro x hx
  have hm : x ∈ _ := List.mem_of_mem_take hx
  simpa using List.of_mem_filter hm

theorem normSummary_str (s : String) :
    normSummary (some (.jstr s)) =
      if pyStrip s = "" then "No summary returned by the LLM." else pyStrip s := by
  by_cases h : s = ""
  · subst h
    rfl
  · have ht : pyTruthy (.jstr s) = true := by
      simp [pyTruthy, h]
    simp [normSummary, ht, pyStr]

theorem normHighlights_strList (hl : List String) :
    normHighlights (some (.jarr (hl.map JValue.jstr))) =
      ((hl.map pyStrip).filter (fun s => s != "")).take 8 := by
  cases hl with
  | nil => rfl
  | cons a as =>
    have ht : pyTruthy (.jarr ((a :: as).map JValue.jstr)) = true := by
      simp [pyTruthy]
    simp only [normHighlights, ht, if_true]
    rw [List.map_map]
    rfl

/-- Claim C1, counterexample: the raw text `[1, 2]` contains no brace,
so the whole text is decoded, yielding a JSON list; `payload.get` then
raises an uncaught `AttributeError`, so the coercion step does not
return an `AgentOutput` for this input, refuting the claim that it
never raises regardless of the JSON kind. -/
theorem claim_c1_counterexample :
    _parse_agent_payload "[1, 2]" "Similarity & strengths agent" =
      .error (.attributeError "list object has no attribute get") := rfl

/-- Claim C1, amended: for every raw text whose extracted blob either
fails to decode or decodes to a JSON object, the response-coercion step
terminates normally and returns an `AgentOutput`; only a successfully
decoded non-object payload raises. -/
theorem claim_c1_amended (raw agent_name : String)
    (h : decodableOrObject (pyLoads (_extract_json_blob raw)) = true) :
    exceptOk (_parse_agent_payload raw agent_name) = true := by
  unfold _parse_agent_payload
  cases hp : pyLoads (_extract_json_blob raw) with
  | none =>
    simp only [hp]
    rfl
  | some v =>
    rw [hp] at h
    cases v <;> simp_all [decodableOrObject, exceptOk]

/-- Claim C1, witness: plain prose is not decodable JSON, so coercion
returns normally on it. -/
theorem claim_c1_witness :
    exceptOk (_parse_agent_payload "The resume looks strong overall." "Similarity & strengths agent") = true :=
  claim_c1_amended "The resume looks strong overall." "Similarity & strengths agent" rfl

/-- Claim C2, counterexample: on the embedded object with a
whitespace-only summary and a padded highlight, the code returns the
sentinel summary and the stripped highlight, not the trimmed object
summary (empty) with the highlight kept verbatim as the claim states. -/
theorem claim_c2_counterexample :
    _parse_agent_payload "\x7b\"summary\": \" \", \"highlights\": [\" x \"]\x7d" "Similarity & strengths agent" =
      .ok ⟨"Similarity & strengths agent", "No summary returned by the LLM.", ["x"]⟩ ∧
    (⟨"Similarity & strengths agent", "No summary returned by the LLM.", ["x"]⟩ : AgentOutput) ≠
      ⟨"Similarity & strengths agent", pyStrip " ", [" x "]⟩ :=
  ⟨rfl, by decide⟩

/-- Claim C2, amended: when the greedy brace-to-brace blob of the raw
text decodes to an object whose summary is a string and whose
highlights is a list of strings, coercion returns that summary trimmed
(or the sentinel when the trim is empty) and those highlights in
order, each trimmed, entries trimming to empty dropped, truncated to
the first 8. -/
theorem claim_c2_amended (raw agent_name s : String) (fs : List (String × JValue)) (hl : List String)
    (hb : pyLoads (_extract_json_blob raw) = some (.jobj fs))
    (hsum : pyGet fs "summary" = some (.jstr s))
    (hhl : pyGet fs "highlights" = some (.jarr (hl.map JValue.jstr))) :
    _parse_agent_payload raw agent_name =
      .ok ⟨agent_name,
           if pyStrip s = "" then "No summary returned by the LLM." else pyStrip s,
           ((hl.map pyStrip).filter (fun t => t != "")).take 8⟩ := by
  unfold _parse_agent_payload
  rw [hb]
  show (Except.ok ⟨agent_name, normSummary (pyGet fs "summary"), normHighlights (pyGet fs "highlights")⟩ :
      Except PyError AgentOutput) = _
  rw [hsum, hhl, normSummary_str, normHighlights_strList]

/-- Claim C2, witness: the end-to-end scenario from the specification,
with leading and trailing noise around the JSON object and an empty
highlight entry that is dropped. -/
theorem claim_c2_witness :
    _parse_agent_payload
      "Here you go: \x7b\"summary\": \"Good fit\", \"highlights\": [\"Python\", \"\", \"5 years exp\"]\x7d trailing text"
      "Compilation agent" =
      .ok ⟨"Compilation agent", "Good fit", ["Python", "5 years exp"]⟩ :=
  claim_c2_amended
    "Here you go: \x7b\"summary\": \"Good fit\", \"highlights\": [\"Python\", \"\", \"5 years exp\"]\x7d trailing text"
    "Compilation agent" "Good fit"
    [("summary", .jstr "Good fit"), ("highlights", .jarr [.jstr "Python", .jstr "", .jstr "5 years exp"])]
    ["Python", "", "5 years exp"] rfl rfl rfl

/-- Claim C3, counterexample: the empty raw text has no decodable JSON,
yet coercion returns the sentinel summary, not the trimmed raw text
(which is empty) as the claim states. -/
theorem claim_c3_counterexample :
    _parse_agent_payload "" "Gap analysis agent" =
      .ok ⟨"Gap analysis agent", "No summary returned by the LLM.", []⟩ ∧
    ("No summary returned by the LLM." : String) ≠ pyStrip "" :=
  ⟨rfl, by decide⟩

/-- Claim C3, amended: when the extracted blob fails to decode,
coercion returns the trimmed raw text as the summary — or the sentinel
when the trimmed raw text is empty — with an empty highlights list. -/
theorem claim_c3_amended (raw agent_name : String)
    (h : pyLoads (_extract_json_blob raw) = none) :
    _parse_agent_payload raw agent_name =
      .ok ⟨agent_name,
           if pyStrip raw = "" then "No summary returned by the LLM." else pyStrip raw,
           []⟩ := by
  unfold _parse_agent_payload
  rw [h]
  show (Except.ok ⟨agent_name, normSummary (some (.jstr (pyStrip raw))), normHighlights (some (.jarr []))⟩ :
      Except PyError AgentOutput) = _
  rw [normSummary_str, pyStrip_idem]
  rfl

/-- Claim C3, witness: non-JSON prose with surrounding whitespace comes
back trimmed as the summary with no highlights. -/
theorem claim_c3_witness :
    _parse_agent_payload "  plain text reply  " "Gap analysis agent" =
      .ok ⟨"Gap analysis agent", "plain text reply", []⟩ :=
  claim_c3_amended "  plain text reply  " "Gap analysis agent" rfl

/-- Claim C4, counterexample: for the payload whose summary field is
the number 0, stringify-and-trim would give the non-empty string 0,
but the code replaces it with the sentinel, because Python truthiness
discards every falsy summary value before `str` is applied; the
claimed normalization (sentinel only when the coerced summary is
empty) therefore does not describe the code. -/
theorem claim_c4_counterexample :
    _parse_agent_payload "\x7b\"summary\": 0, \"highlights\": [\"x\"]\x7d" "Similarity & strengths agent" =
      .ok ⟨"Similarity & strengths agent", "No summary returned by the LLM.", ["x"]⟩ ∧
    pyStrip (pyStr (.jnum 0)) = "0" ∧ ("0" : String) ≠ "No summary returned by the LLM." :=
  ⟨rfl, rfl, by decide⟩

/-- Claim C4, amended invariant: whenever the coercion step returns an
`AgentOutput` (it raises on decoded non-object payloads, and applies
Python truthiness before the string coercions), that output has a
non-empty summary and at most 8 highlights, each non-empty. -/
theorem claim_c4_invariant (raw agent_name : String) (out : AgentOutput)
    (h : _parse_agent_payload raw agent_name = .ok out) :
    out.summary ≠ "" ∧ out.highlights.length ≤ 8 ∧
      out.highlights.all (fun s => s != "") = true := by
  unfold _parse_agent_payload at h
  cases hp : pyLoads (_extract_json_blob raw) with
  | none =>
    simp only [hp] at h
    injection h with h2
    subst h2
    dsimp only
    exact ⟨normSummary_ne_empty _, normHighlights_length_le _, normHighlights_all _⟩
  | some v =>
    simp only [hp] at h
    cases v with
    | jobj fs =>
      injection h with h2
      subst h2
      dsimp only
      exact ⟨normSummary_ne_empty _, normHighlights_length_le _, normHighlights_all _⟩
    | jnull => exact Except.noConfusion h
    | jbool b => exact Except.noConfusion h
    | jnum n => exact Except.noConfusion h
    | jstr s => exact Except.noConfusion h
    | jarr xs => exact Except.noConfusion h

/-- Claim C4, witness: a well-formed payload produces an output
satisfying the invariant. -/
theorem claim_c4_witness :
    ("Solid profile" : String) ≠ "" ∧ (["Python"] : List String).length ≤ 8 ∧
      (["Python"] : List String).all (fun s => s != "") = true :=
  claim_c4_invariant "\x7b\"summary\": \"Solid profile\", \"highlights\": [\"Python\"]\x7d"
    "Gap analysis agent" ⟨"Gap analysis agent", "Solid profile", ["Python"]⟩ rfl

/-- Claim C5: a string of at most 4000 characters passes through
`_truncate` unchanged; a longer one is cut to exactly its first 4000
characters with the truncation marker appended. -/
theorem claim_c5 (text : String) :
    (text.length ≤ 4000 → _truncate text 4000 = text) ∧
    (4000 < text.length →
      _truncate text 4000 = String.mk (text.data.take 4000) ++ "\n...\n[truncated]" ∧
      (String.mk (text.data.take 4000)).length = 4000) := by
  constructor
  · intro h
    simp [_truncate, h]
  · intro h
    refine ⟨by simp [_truncate, Nat.not_le.mpr h], ?_⟩
    show (text.data.take 4000).length = 4000
    rw [List.length_take]
    exact Nat.min_eq_left (Nat.le_of_lt h)

/-- Claim C5, witness: a short string passes through unchanged and a
4001-character string is cut to its first 4000 characters plus the
marker. -/
theorem claim_c5_witness :
    _truncate "short text" 4000 = "short text" ∧
    _truncate longText 4000 = String.mk (List.replicate 4000 'a') ++ "\n...\n[truncated]" := by
  constructor
  · exact (claim_c5 "short text").1 (by decide)
  · have h : 4000 < longText.length := by
      show 4000 < (List.replicate 4001 'a').length
      rw [List.length_replicate]
      decide
    have h2 := (claim_c5 longText).2 h
    rw [h2.1]
    show String.mk ((List.replicate 4001 'a').take 4000) ++ _ = _
    rw [List.take_replicate]
    norm_num

/-- Claim C6, counterexample: the wrapped message reads could not
complete due to an upstream Groq error, which differs from the message
quoted by the claim (could not complete due to an upstream error). -/
theorem claim_c6_counterexample :
    (run_agent_workflow failingGapBackend "resume text" "job text").1 =
      .error (.agentExecutionError "Agent 2 (gap analysis) could not complete due to an upstream Groq error.") ∧
    ("Agent 2 (gap analysis) could not complete due to an upstream Groq error." : String) ≠
      "Agent 2 (gap analysis) could not complete due to an upstream error." :=
  ⟨rfl, by decide⟩

/-- Claim C6, amended: if the similarity stage succeeded and the
backend raises a transport error on the gap-stage call, the pipeline
returns the single wrapped domain error carrying the gap-stage label
(with the provider name in the message), and the recorded calls are
exactly one similarity call and one gap call — no retry and no
compilation call, hence no partial result. -/
theorem claim_c6_amended (backend : LLMCall → Except String String) (r j : String)
    (o1 : AgentOutput) (err : String)
    (h1 : (agent_one backend r j).1 = .ok o1)
    (h2 : backend ⟨.gap, [("resume_excerpt", _truncate r 4000), ("job_description", _truncate j 4000)]⟩ = .error err) :
    run_agent_workflow backend r j =
      (.error (.agentExecutionError "Agent 2 (gap analysis) could not complete due to an upstream Groq error."),
       [⟨.similarity, [("resume_excerpt", _truncate r 4000), ("job_description", _truncate j 4000)]⟩,
        ⟨.gap, [("resume_excerpt", _truncate r 4000), ("job_description", _truncate j 4000)]⟩]) := by
  have hA2 : agent_two backend r j =
      (.error (.agentExecutionError "Agent 2 (gap analysis) could not complete due to an upstream Groq error."),
       [⟨.gap, [("resume_excerpt", _truncate r 4000), ("job_description", _truncate j 4000)]⟩]) := by
    simp only [agent_two, _invoke, h2]
    rfl
  simp only [run_agent_workflow, h1, hA2]
  rfl

/-- Claim C6, witness: with a backend failing exactly on the gap call,
the pipeline aborts after the similarity and gap calls with the single
wrapped error. -/
theorem claim_c6_witness :
    run_agent_workflow failingGapBackend "resume text" "job text" =
      (.error (.agentExecutionError "Agent 2 (gap analysis) could not complete due to an upstream Groq error."),
       [⟨.similarity, [("resume_excerpt", "resume text"), ("job_description", "job text")]⟩,
        ⟨.gap, [("resume_excerpt", "resume text"), ("job_description", "job text")]⟩]) :=
  claim_c6_amended failingGapBackend "resume text" "job text"
    ⟨"Similarity & strengths agent", "ok", []⟩ "connection reset" rfl rfl

/-- Claim C7: the compilation stage's rendered input is two blocks,
stage 1 bound to the first slot and stage 2 to the second, each block
the upstream summary followed by its highlights joined by newlines,
with the fixed placeholder substituted for an absent upstream output
(and, as in the source, for an empty block). -/
theorem claim_c7 (backend : LLMCall → Except String String) (o1 o2 : AgentOutput) :
    (agent_three backend [o1, o2]).2 =
      [⟨.compilation,
        [("agent_one_feedback",
          if feedback_block o1 = "" then "Agent 1 did not produce feedback." else feedback_block o1),
         ("agent_two_feedback",
          if feedback_block o2 = "" then "Agent 2 did not produce feedback." else feedback_block o2)]⟩] ∧
    (agent_three backend [o1]).2 =
      [⟨.compilation,
        [("agent_one_feedback",
          if feedback_block o1 = "" then "Agent 1 did not produce feedback." else feedback_block o1),
         ("agent_two_feedback", "Agent 2 did not produce feedback.")]⟩] ∧
    (agent_three backend []).2 =
      [⟨.compilation,
        [("agent_one_feedback", "Agent 1 did not produce feedback."),
         ("agent_two_feedback", "Agent 2 did not produce feedback.")]⟩] :=
  ⟨rfl, rfl, rfl⟩

/-- Claim C8: when all three stages return normally, the pipeline
returns exactly the three stage outputs in order — similarity, gap,
compiled verdict — and the recorded calls show the similarity and gap
stages each receiving the same two truncated original inputs, the gap
stage independent of stage 1's result. -/
theorem claim_c8 (backend : LLMCall → Except String String) (r j : String)
    (o1 o2 o3 : AgentOutput)
    (h1 : (agent_one backend r j).1 = .ok o1)
    (h2 : (agent_two backend r j).1 = .ok o2)
    (h3 : (agent_three backend [o1, o2]).1 = .ok o3) :
    run_agent_workflow backend r j =
      (.ok [o1, o2, o3],
       [⟨.similarity, [("resume_excerpt", _truncate r 4000), ("job_description", _truncate j 4000)]⟩,
        ⟨.gap, [("resume_excerpt", _truncate r 4000), ("job_description", _truncate j 4000)]⟩] ++
        (agent_three backend [o1, o2]).2) := by
  simp only [run_agent_workflow, h1, h2, h3]
  rfl

/-- Claim C8, witness: a full run on a concrete backend returns the
three stage outputs positionally and performs exactly three calls. -/
theorem claim_c8_witness :
    run_agent_workflow demoBackend "My resume" "My job" =
      (.ok [⟨"Similarity & strengths agent", "Strong overlap", ["Python"]⟩,
            ⟨"Gap analysis agent", "Missing cloud", []⟩,
            ⟨"Compilation agent", "Good fit overall", ["Hire"]⟩],
       [⟨.similarity, [("resume_excerpt", "My resume"), ("job_description", "My job")]⟩,
        ⟨.gap, [("resume_excerpt", "My resume"), ("job_description", "My job")]⟩,
        ⟨.compilation, [("agent_one_feedback", "Strong overlap\nPython"),
                        ("agent_two_feedback", "Missing cloud")]⟩]) :=
  claim_c8 demoBackend "My resume" "My job"
    ⟨"Similarity & strengths agent", "Strong overlap", ["Python"]⟩
    ⟨"Gap analysis agent", "Missing cloud", []⟩
    ⟨"Compilation agent", "Good fit overall", ["Hire"]⟩ rfl rfl rfl

/-- Claim C9: coercion is a deterministic function of the raw text and
agent name — equal raw texts yield equal results. -/
theorem claim_c9 (raw1 raw2 agent_name : String) (h : raw1 = raw2) :
    _parse_agent_payload raw1 agent_name = _parse_agent_payload raw2 agent_name := by
  rw [h]

/-- Claim C9, witness: instantiated at a concrete raw text. -/
theorem claim_c9_witness :
    _parse_agent_payload "\x7b\"summary\": \"Good fit\"\x7d" "Gap analysis agent" =
      _parse_agent_payload "\x7b\"summary\": \"Good fit\"\x7d" "Gap analysis agent" :=
  claim_c9 "\x7b\"summary\": \"Good fit\"\x7d" "\x7b\"summary\": \"Good fit\"\x7d" "Gap analysis agent" rfl

/-- Claim C10: when both upstream feedback blocks exceed 4000
characters, the compilation call still receives them whole — no
truncation and no marker — while the similarity and gap calls receive
the `_truncate`-processed resume and job description. -/
theorem claim_c10 (backend : LLMCall → Except String String) (o1 o2 : AgentOutput) (r j : String)
    (h1 : 4000 < (feedback_block o1).length)
    (h2 : 4000 < (feedback_block o2).length) :
    (agent_three backend [o1, o2]).2 =
      [⟨.compilation, [("agent_one_feedback", feedback_block o1),
                       ("agent_two_feedback", feedback_block o2)]⟩] ∧
    (agent_one backend r j).2 =
      [⟨.similarity, [("resume_excerpt", _truncate r 4000), ("job_description", _truncate j 4000)]⟩] ∧
    (agent_two backend r j).2 =
      [⟨.gap, [("resume_excerpt", _truncate r 4000), ("job_description", _truncate j 4000)]⟩] := by
  have e1 : feedback_block o1 ≠ "" := by
    intro he
    rw [he] at h1
    exact absurd h1 (by decide)
  have e2 : feedback_block o2 ≠ "" := by
    intro he
    rw [he] at h2
    exact absurd h2 (by decide)
  refine ⟨?_, rfl, rfl⟩
  simp only [agent_three, _invoke]
  rw [if_neg e1, if_neg e2]

/-- Claim C10, witness: upstream outputs with 4100- and 4200-character
blocks reach the compilation call untruncated, exceeding the 4000
character limit that applies to the first two stages. -/
theorem claim_c10_witness :
    (agent_three demoBackend [longOutput1, longOutput2]).2 =
      [⟨.compilation, [("agent_one_feedback", feedback_block longOutput1),
                       ("agent_two_feedback", feedback_block longOutput2)]⟩] ∧
    4000 < (feedback_block longOutput1).length ∧
    4000 < (feedback_block longOutput2).length := by
  have h1 : 4000 < (feedback_block longOutput1).length := by
    show 4000 < (List.replicate 4100 'a').length
    rw [List.length_replicate]
    decide
  have h2 : 4000 < (feedback_block longOutput2).length := by
    show 4000 < (List.replicate 4200 'b').length
    rw [List.length_replicate]
    decide
  exact ⟨(claim_c10 demoBackend longOutput1 longOutput2 "r" "j" h1 h2).1, h1, h2⟩
